import Mathlib

set_option maxHeartbeats 1000000

/-!
Verification development for the NV2A shader generator
(`hw/xbox/nv2a/shaders.c`).

The C code is shallowly embedded: every `mstring_append` /
`mstring_append_fmt` call becomes one `String` element of a `List String`,
fatal `assert(...)` failures become `Except.error`, and the pure decisions
(switches on the state enums) become Lean `match`es on the corresponding
inductive types.  GLSL braces inside emitted text are written with the
escapes `\x7b` and `\x7d`.
-/

/-- Polygon fill modes (`enum ShaderPolygonMode`, declared in `shaders.h`,
which is not under `src/`; the three variants used by `shaders.c` are
`POLY_MODE_POINT`, `POLY_MODE_LINE` (wireframe) and `POLY_MODE_FILL`,
matching the spec's point/wireframe/fill modes). -/
inductive ShaderPolygonMode
  | POLY_MODE_POINT
  | POLY_MODE_LINE
  | POLY_MODE_FILL
deriving DecidableEq, Repr, Fintype

/-- Primitive topologies (`enum ShaderPrimitiveMode`); the ten variants
handled by `generate_geometry_shader` (shaders.c:94-209). -/
inductive ShaderPrimitiveMode
  | PRIM_TYPE_POINTS
  | PRIM_TYPE_LINES
  | PRIM_TYPE_LINE_LOOP
  | PRIM_TYPE_LINE_STRIP
  | PRIM_TYPE_TRIANGLES
  | PRIM_TYPE_TRIANGLE_STRIP
  | PRIM_TYPE_TRIANGLE_FAN
  | PRIM_TYPE_QUADS
  | PRIM_TYPE_QUAD_STRIP
  | PRIM_TYPE_POLYGON
deriving DecidableEq, Repr, Fintype

/-- Host (GL) primitive topologies assigned to `*gl_primitive_mode` by
`generate_geometry_shader`. -/
inductive GLPrimitiveMode
  | GL_POINTS
  | GL_LINES
  | GL_LINE_LOOP
  | GL_LINE_STRIP
  | GL_TRIANGLES
  | GL_TRIANGLE_STRIP
  | GL_TRIANGLE_FAN
  | GL_LINES_ADJACENCY
  | GL_LINE_STRIP_ADJACENCY
deriving DecidableEq, Repr, Fintype

/-- The three per-case text pieces of the generated geometry shader
(`layout_in`, `layout_out`, `body` locals of `generate_geometry_shader`,
shaders.c:91-93). -/
structure GeomShaderProgram where
  layout_in : String
  layout_out : String
  body : String
deriving DecidableEq, Repr

/-- Message of the fatal precondition `assert(polygon_front_mode ==
polygon_back_mode)` at shaders.c:81. -/
def geomPrecondMsg : String :=
  "assert failed: polygon_front_mode == polygon_back_mode"

/-- Geometry-shader body for wireframe triangles (shaders.c:105-109). -/
def triLineBody : String :=
  "  emit_vertex(0);\n  emit_vertex(1);\n  emit_vertex(2);\n  emit_vertex(0);\n  EndPrimitive();\n"

/-- Geometry-shader body for wireframe triangle strips (shaders.c:119-131). -/
def triStripLineBody : String :=
  "  if ((gl_PrimitiveIDIn & 1) == 0) \x7b\n    if (gl_PrimitiveIDIn == 0) \x7b\n      emit_vertex(0);\n    \x7d\n    emit_vertex(1);\n    emit_vertex(2);\n    emit_vertex(0);\n  \x7d else \x7b\n    emit_vertex(2);\n    emit_vertex(1);\n    emit_vertex(0);\n  \x7d\n  EndPrimitive();\n"

/-- Geometry-shader body for wireframe triangle fans (shaders.c:139-145). -/
def triFanLineBody : String :=
  "  if (gl_PrimitiveIDIn == 0) \x7b\n    emit_vertex(0);\n  \x7d\n  emit_vertex(1);\n  emit_vertex(2);\n  emit_vertex(0);\n  EndPrimitive();\n"

/-- Geometry-shader body for wireframe quads (shaders.c:152-157). -/
def quadLineBody : String :=
  "  emit_vertex(0);\n  emit_vertex(1);\n  emit_vertex(2);\n  emit_vertex(3);\n  emit_vertex(0);\n  EndPrimitive();\n"

/-- Geometry-shader body for filled quads (shaders.c:160-164). -/
def quadFillBody : String :=
  "  emit_vertex(0);\n  emit_vertex(1);\n  emit_vertex(3);\n  emit_vertex(2);\n  EndPrimitive();\n"

/-- Geometry-shader body for wireframe quad strips (shaders.c:175-183). -/
def quadStripLineBody : String :=
  "  if ((gl_PrimitiveIDIn & 1) != 0) \x7b return; \x7d\n  if (gl_PrimitiveIDIn == 0) \x7b\n    emit_vertex(0);\n  \x7d\n  emit_vertex(1);\n  emit_vertex(3);\n  emit_vertex(2);\n  emit_vertex(0);\n  EndPrimitive();\n"

/-- Geometry-shader body for filled quad strips (shaders.c:186-191). -/
def quadStripFillBody : String :=
  "  if ((gl_PrimitiveIDIn & 1) != 0) \x7b return; \x7d\n  emit_vertex(0);\n  emit_vertex(1);\n  emit_vertex(2);\n  emit_vertex(3);\n  EndPrimitive();\n"

/-- Embedding of `generate_geometry_shader` (shaders.c:73-236).  The C
function writes the chosen host topology through `*gl_primitive_mode` and
returns the optional geometry-program text; failed `assert`s abort the
process and are modelled as `Except.error`. -/
def generate_geometry_shader (polygon_front_mode polygon_back_mode : ShaderPolygonMode)
    (primitive_mode : ShaderPrimitiveMode) :
    Except String (GLPrimitiveMode × Option GeomShaderProgram) :=
  if polygon_front_mode = polygon_back_mode then
    let polygon_mode := polygon_front_mode
    if polygon_mode = .POLY_MODE_POINT then .ok (.GL_POINTS, none)
    else
      match primitive_mode with
      | .PRIM_TYPE_POINTS => .ok (.GL_POINTS, none)
      | .PRIM_TYPE_LINES => .ok (.GL_LINES, none)
      | .PRIM_TYPE_LINE_LOOP => .ok (.GL_LINE_LOOP, none)
      | .PRIM_TYPE_LINE_STRIP => .ok (.GL_LINE_STRIP, none)
      | .PRIM_TYPE_TRIANGLES =>
          if polygon_mode = .POLY_MODE_FILL then .ok (.GL_TRIANGLES, none)
          else if polygon_mode = .POLY_MODE_LINE then
            .ok (.GL_TRIANGLES, some
              ⟨"layout(triangles) in;\n",
               "layout(line_strip, max_vertices = 4) out;\n", triLineBody⟩)
          else .error "assert failed: polygon_mode == POLY_MODE_LINE"
      | .PRIM_TYPE_TRIANGLE_STRIP =>
          if polygon_mode = .POLY_MODE_FILL then .ok (.GL_TRIANGLE_STRIP, none)
          else if polygon_mode = .POLY_MODE_LINE then
            .ok (.GL_TRIANGLE_STRIP, some
              ⟨"layout(triangles) in;\n",
               "layout(line_strip, max_vertices = 4) out;\n", triStripLineBody⟩)
          else .error "assert failed: polygon_mode == POLY_MODE_LINE"
      | .PRIM_TYPE_TRIANGLE_FAN =>
          if polygon_mode = .POLY_MODE_FILL then .ok (.GL_TRIANGLE_FAN, none)
          else if polygon_mode = .POLY_MODE_LINE then
            .ok (.GL_TRIANGLE_FAN, some
              ⟨"layout(triangles) in;\n",
               "layout(line_strip, max_vertices = 4) out;\n", triFanLineBody⟩)
          else .error "assert failed: polygon_mode == POLY_MODE_LINE"
      | .PRIM_TYPE_QUADS =>
          if polygon_mode = .POLY_MODE_LINE then
            .ok (.GL_LINES_ADJACENCY, some
              ⟨"layout(lines_adjacency) in;\n",
               "layout(line_strip, max_vertices = 5) out;\n", quadLineBody⟩)
          else if polygon_mode = .POLY_MODE_FILL then
            .ok (.GL_LINES_ADJACENCY, some
              ⟨"layout(lines_adjacency) in;\n",
               "layout(triangle_strip, max_vertices = 4) out;\n", quadFillBody⟩)
          else .error "assert failed: false (QUADS with unsupported polygon mode)"
      | .PRIM_TYPE_QUAD_STRIP =>
          if polygon_mode = .POLY_MODE_LINE then
            .ok (.GL_LINE_STRIP_ADJACENCY, some
              ⟨"layout(lines_adjacency) in;\n",
               "layout(line_strip, max_vertices = 5) out;\n", quadStripLineBody⟩)
          else if polygon_mode = .POLY_MODE_FILL then
            .ok (.GL_LINE_STRIP_ADJACENCY, some
              ⟨"layout(lines_adjacency) in;\n",
               "layout(triangle_strip, max_vertices = 4) out;\n", quadStripFillBody⟩)
          else .error "assert failed: false (QUAD_STRIP with unsupported polygon mode)"
      | .PRIM_TYPE_POLYGON =>
          if polygon_mode = .POLY_MODE_LINE then .ok (.GL_LINE_LOOP, none)
          else if polygon_mode = .POLY_MODE_FILL then .ok (.GL_TRIANGLE_FAN, none)
          else .error "assert failed: false (POLYGON with unsupported polygon mode)"
  else .error geomPrecondMsg

/-- Common part of every generated geometry shader (shaders.c:215-231):
version pragma, the `VertexData` passthrough and the `emit_vertex` helper.
`STRUCT_VERTEX_DATA` comes from `shaders_common.h`, which is not under
`src/`; its text is modelled from the spec's output-register list. -/
def geomCommonText : String :=
  "\nstruct VertexData \x7b\n  float inv_w;\n  vec4 D0;\n  vec4 D1;\n  vec4 B0;\n  vec4 B1;\n  float Fog;\n  vec4 T0;\n  vec4 T1;\n  vec4 T2;\n  vec4 T3;\n\x7d;\nnoperspective in VertexData v_vtx[];\nnoperspective out VertexData g_vtx;\n\nvoid emit_vertex(int index) \x7b\n  gl_Position = gl_in[index].gl_Position;\n  gl_PointSize = gl_in[index].gl_PointSize;\n  g_vtx = v_vtx[index];\n  EmitVertex();\n\x7d\n\nvoid main() \x7b\n"

/-- Full text of a generated geometry shader, assembled as in
shaders.c:215-233. -/
def geometry_shader_text (g : GeomShaderProgram) : String :=
  "#version 330\n\n" ++ g.layout_in ++ g.layout_out ++ geomCommonText ++ g.body ++ "\x7d\n"

/-- Projection of an `Except` result onto its fatal-abort message, if any. -/
def errMsg {α : Type} : Except String α → Option String
  | .error e => some e
  | .ok _ => none

/-- Vertex indices emitted by the wireframe quad-strip geometry body
(`quadStripLineBody`, shaders.c:175-183) as a function of
`gl_PrimitiveIDIn`: odd primitives return immediately, primitive 0 emits a
leading vertex 0, then every surviving primitive emits 1,3,2,0. -/
def quad_strip_line_emits (primID : Nat) : List Nat :=
  if primID &&& 1 ≠ 0 then []
  else (if primID = 0 then [0] else []) ++ [1, 3, 2, 0]

/-- Vertex indices emitted by the filled quad-strip geometry body
(`quadStripFillBody`, shaders.c:186-191) as a function of
`gl_PrimitiveIDIn`: odd primitives return immediately, every surviving
primitive emits 0,1,2,3 (there is no special case for primitive 0). -/
def quad_strip_fill_emits (primID : Nat) : List Nat :=
  if primID &&& 1 ≠ 0 then []
  else [0, 1, 2, 3]

/-- Claim C1: for the (polygon mode, primitive) pairs in the spec's mapping
table — with front mode equal to back mode — `generate_geometry_shader`
produces exactly the prescribed host topology and geometry-stage program:
point mode gives points with no geometry program; filled
triangles/strip/fan give the native topology with no geometry program;
wireframe triangles give triangles plus a geometry program emitting
vertices 0,1,2,0 as a closed line strip with one `EndPrimitive`; filled
quads give line-adjacency input plus a 4-vertex triangle strip 0,1,3,2;
wireframe quads give line-adjacency input plus a 5-vertex closed line
strip 0,1,2,3,0. -/
theorem geometry_shader_mapping_table :
    (∀ p, generate_geometry_shader .POLY_MODE_POINT .POLY_MODE_POINT p =
      .ok (.GL_POINTS, none))
    ∧ generate_geometry_shader .POLY_MODE_FILL .POLY_MODE_FILL .PRIM_TYPE_TRIANGLES =
        .ok (.GL_TRIANGLES, none)
    ∧ generate_geometry_shader .POLY_MODE_FILL .POLY_MODE_FILL .PRIM_TYPE_TRIANGLE_STRIP =
        .ok (.GL_TRIANGLE_STRIP, none)
    ∧ generate_geometry_shader .POLY_MODE_FILL .POLY_MODE_FILL .PRIM_TYPE_TRIANGLE_FAN =
        .ok (.GL_TRIANGLE_FAN, none)
    ∧ generate_geometry_shader .POLY_MODE_LINE .POLY_MODE_LINE .PRIM_TYPE_TRIANGLES =
        .ok (.GL_TRIANGLES, some
          ⟨"layout(triangles) in;\n",
           "layout(line_strip, max_vertices = 4) out;\n",
           "  emit_vertex(0);\n  emit_vertex(1);\n  emit_vertex(2);\n  emit_vertex(0);\n  EndPrimitive();\n"⟩)
    ∧ generate_geometry_shader .POLY_MODE_FILL .POLY_MODE_FILL .PRIM_TYPE_QUADS =
        .ok (.GL_LINES_ADJACENCY, some
          ⟨"layout(lines_adjacency) in;\n",
           "layout(triangle_strip, max_vertices = 4) out;\n",
           "  emit_vertex(0);\n  emit_vertex(1);\n  emit_vertex(3);\n  emit_vertex(2);\n  EndPrimitive();\n"⟩)
    ∧ generate_geometry_shader .POLY_MODE_LINE .POLY_MODE_LINE .PRIM_TYPE_QUADS =
        .ok (.GL_LINES_ADJACENCY, some
          ⟨"layout(lines_adjacency) in;\n",
           "layout(line_strip, max_vertices = 5) out;\n",
           "  emit_vertex(0);\n  emit_vertex(1);\n  emit_vertex(2);\n  emit_vertex(3);\n  emit_vertex(0);\n  EndPrimitive();\n"⟩) :=
  ⟨fun _ => rfl, rfl, rfl, rfl, rfl, rfl, rfl⟩

/-- Claim C6: inputs with differing front/back polygon modes hit the fatal
precondition assertion of `generate_geometry_shader` (shaders.c:81) before
any output is produced, and inputs with equal modes never hit a fatal
path. -/
theorem geometry_precondition_fatal (f b : ShaderPolygonMode) (p : ShaderPrimitiveMode) :
    (f ≠ b → errMsg (generate_geometry_shader f b p) = some geomPrecondMsg)
    ∧ (f = b → errMsg (generate_geometry_shader f b p) = none) := by
  constructor
  · intro h
    simp [generate_geometry_shader, h]
    rfl
  · intro h
    subst h
    cases f <;> cases p <;> rfl

/-- Witness for `geometry_precondition_fatal`: a concrete asymmetric input
aborts, a concrete symmetric input does not. -/
theorem geometry_precondition_fatal_witness :
    errMsg (generate_geometry_shader .POLY_MODE_LINE .POLY_MODE_FILL .PRIM_TYPE_TRIANGLES) =
      some geomPrecondMsg
    ∧ errMsg (generate_geometry_shader .POLY_MODE_FILL .POLY_MODE_FILL .PRIM_TYPE_QUADS) = none :=
  ⟨(geometry_precondition_fatal _ _ _).1 (by decide),
   (geometry_precondition_fatal _ _ _).2 rfl⟩

/-- Counterexample to claim C5: in fill mode the first quad-strip primitive
(primitive-ID 0) emits exactly the same 4-vertex sequence as every other
even primitive — no extra leading vertex — while wireframe mode does give
primitive 0 an extra leading vertex. -/
theorem quad_strip_no_fill_leading_vertex :
    quad_strip_fill_emits 0 = [0, 1, 2, 3]
    ∧ quad_strip_fill_emits 2 = [0, 1, 2, 3]
    ∧ (quad_strip_fill_emits 0).length = (quad_strip_fill_emits 2).length
    ∧ quad_strip_line_emits 0 = 0 :: quad_strip_line_emits 2 := by
  decide

/-- Claim C5 (amended): for quad strips in both polygon modes the emitted
geometry program skips primitives with odd primitive-ID entirely; the
extra leading vertex for primitive-ID 0 is emitted only in wireframe mode,
while in fill mode every surviving primitive emits the same 4-vertex
sequence.  The final two conjuncts pin the program texts these emission
functions model. -/
theorem quad_strip_emission (n : Nat) :
    (n &&& 1 ≠ 0 → quad_strip_line_emits n = [] ∧ quad_strip_fill_emits n = [])
    ∧ (n &&& 1 = 0 → quad_strip_fill_emits n = [0, 1, 2, 3])
    ∧ quad_strip_line_emits 0 = [0, 1, 3, 2, 0]
    ∧ (n &&& 1 = 0 → n ≠ 0 → quad_strip_line_emits n = [1, 3, 2, 0])
    ∧ generate_geometry_shader .POLY_MODE_LINE .POLY_MODE_LINE .PRIM_TYPE_QUAD_STRIP =
        .ok (.GL_LINE_STRIP_ADJACENCY, some
          ⟨"layout(lines_adjacency) in;\n",
           "layout(line_strip, max_vertices = 5) out;\n", quadStripLineBody⟩)
    ∧ generate_geometry_shader .POLY_MODE_FILL .POLY_MODE_FILL .PRIM_TYPE_QUAD_STRIP =
        .ok (.GL_LINE_STRIP_ADJACENCY, some
          ⟨"layout(lines_adjacency) in;\n",
           "layout(triangle_strip, max_vertices = 4) out;\n", quadStripFillBody⟩) := by
  refine ⟨fun h => ?_, fun h => ?_, rfl, fun h hn => ?_, rfl, rfl⟩
  · exact ⟨by unfold quad_strip_line_emits; rw [if_pos h],
           by unfold quad_strip_fill_emits; rw [if_pos h]⟩
  · unfold quad_strip_fill_emits; rw [if_neg (not_ne_iff.mpr h)]
  · unfold quad_strip_line_emits
    rw [if_neg (not_ne_iff.mpr h), if_neg hn, List.nil_append]

/-- Witness for `quad_strip_emission` at the concrete primitive-IDs 3 and 2. -/
theorem quad_strip_emission_witness :
    (quad_strip_line_emits 3 = [] ∧ quad_strip_fill_emits 3 = [])
    ∧ quad_strip_fill_emits 2 = [0, 1, 2, 3]
    ∧ quad_strip_line_emits 2 = [1, 3, 2, 0] :=
  ⟨(quad_strip_emission 3).1 (by decide),
   (quad_strip_emission 2).2.1 (by decide),
   (quad_strip_emission 2).2.2.2.1 (by decide) (by decide)⟩

/-- Skinning modes (`enum ShaderSkinning`); the seven variants handled by
the switch at shaders.c:377-395, in that order. -/
inductive SkinningMode
  | SKINNING_OFF
  | SKINNING_1WEIGHTS
  | SKINNING_2WEIGHTS2MATRICES
  | SKINNING_2WEIGHTS
  | SKINNING_3WEIGHTS3MATRICES
  | SKINNING_3WEIGHTS
  | SKINNING_4WEIGHTS4MATRICES
deriving DecidableEq, Repr, Fintype

/-- Texture-coordinate generation modes; the six variants handled by the
switch at shaders.c:421-473. -/
inductive TexgenMode
  | TEXGEN_DISABLE
  | TEXGEN_EYE_LINEAR
  | TEXGEN_OBJECT_LINEAR
  | TEXGEN_SPHERE_MAP
  | TEXGEN_REFLECTION_MAP
  | TEXGEN_NORMAL_MAP
deriving DecidableEq, Repr, Fintype

/-- Ambient/emission color sources (shaders.c:491-506). -/
inductive MaterialColorSource
  | MATERIAL_COLOR_SRC_MATERIAL
  | MATERIAL_COLOR_SRC_DIFFUSE
  | MATERIAL_COLOR_SRC_SPECULAR
deriving DecidableEq, Repr, Fintype

/-- Per-light types (shaders.c:511-588). -/
inductive LightType
  | LIGHT_OFF
  | LIGHT_INFINITE
  | LIGHT_LOCAL
  | LIGHT_SPOT
deriving DecidableEq, Repr, Fintype

/-- Fog-distance generation modes; the five variants handled at
shaders.c:624-645 (the spec's alpha/radial/planar/absolute-planar/register
modes). -/
inductive FoggenMode
  | FOGGEN_SPEC_ALPHA
  | FOGGEN_RADIAL
  | FOGGEN_PLANAR
  | FOGGEN_ABS_PLANAR
  | FOGGEN_FOG_X
deriving DecidableEq, Repr, Fintype

/-- Fog factor modes; the six variants handled at shaders.c:791-849. -/
inductive FogMode
  | FOG_MODE_LINEAR
  | FOG_MODE_LINEAR_ABS
  | FOG_MODE_EXP
  | FOG_MODE_EXP_ABS
  | FOG_MODE_EXP2
  | FOG_MODE_EXP2_ABS
deriving DecidableEq, Repr, Fintype

/-- `NV2A_MAX_TEXTURES` (4 texture stages, per the spec's data model). -/
def NV2A_MAX_TEXTURES : Nat := 4

/-- `NV2A_MAX_LIGHTS` (8 lights, per the spec's data model). -/
def NV2A_MAX_LIGHTS : Nat := 8

/-- `NV2A_VERTEXSHADER_ATTRIBUTES` (16 vertex attributes `v0..v15`, per the
spec's external-interface contract). -/
def NV2A_VERTEXSHADER_ATTRIBUTES : Nat := 16

/-- `NV2A_VERTEXSHADER_CONSTANTS`: number of vertex-constant slots
`c[0..N)`.  The numeric value lives in a header that is not under `src/`;
192 is used here and no claim depends on the exact value. -/
def NV2A_VERTEXSHADER_CONSTANTS : Nat := 192

/-- `NV2A_LTCTXA_COUNT` (lighting-context bank A size; header not under
`src/`, exact value not relied upon by any claim). -/
def NV2A_LTCTXA_COUNT : Nat := 26

/-- `NV2A_LTCTXB_COUNT` (lighting-context bank B size; header not under
`src/`, exact value not relied upon by any claim). -/
def NV2A_LTCTXB_COUNT : Nat := 52

/-- `NV2A_LTC1_COUNT` (lighting-context bank 1 size; header not under
`src/`, exact value not relied upon by any claim). -/
def NV2A_LTC1_COUNT : Nat := 20

/-- The `ShaderState` input descriptor (struct `ShaderState` from
`shaders.h`, reconstructed from every field access in `shaders.c`).  C
`float` fields are embedded as `ℚ`; the opaque vertex-program bytecode is
a list of 32-bit words; `psh` (the register-combiner state consumed only
by the external `psh_translate`) is not modelled. -/
structure ShaderState where
  primitive_mode : ShaderPrimitiveMode
  polygon_front_mode : ShaderPolygonMode
  polygon_back_mode : ShaderPolygonMode
  fixed_function : Bool
  vertex_program : Bool
  program_data : List Nat
  program_length : Nat
  z_perspective : Bool
  skinning : SkinningMode
  normalization : Bool
  texgen : Fin 4 → Fin 4 → TexgenMode
  texture_matrix_enable : Fin 4 → Bool
  lighting : Bool
  ambient_src : MaterialColorSource
  emission_src : MaterialColorSource
  light : Fin 8 → LightType
  fog_enable : Bool
  foggen : FoggenMode
  fog_mode : FogMode
  point_params_enable : Bool
  point_params : Fin 8 → ℚ
  point_size : ℚ
  surface_scale_factor : Int
  compressed_attrs : Nat

/-- The component-swizzle character table `"xyzw"[i]` used at
shaders.c:257, 272 and 419. -/
def xyzw (i : Nat) : String := ["x", "y", "z", "w"].getD i ""

/-- The texgen-plane suffix table `"STRQ"[j]` used at shaders.c:420. -/
def strq (i : Nat) : String := ["S", "T", "R", "Q"].getD i ""

/-- Models C `%f` formatting (six fractional digits, rounding half away
from zero) for the float-typed state parameters, embedded as `ℚ`.  No
claim depends on the exact digit string; determinism only needs it to be a
function of the value. -/
def fmtFloat (q : ℚ) : String :=
  let n : Int := Int.floor (|q| * 1000000 + 1 / 2)
  let ip := n / 1000000
  let fp := (n % 1000000).toNat
  let fpStr := toString fp
  let pad := String.mk (List.replicate (6 - fpStr.length) '0')
  (if q < 0 then "-" else "") ++ toString ip ++ "." ++ pad ++ fpStr

/-- The unity-sum ("mix") weight block emitted by `append_skinning_code`
(shaders.c:251-267): declares `weight_i`/`weight_n`, takes explicit
weights `weight.x`, `weight.y`, ... for the first `count - 1` bones while
subtracting each from `weight_n`, uses `weight_n` itself for the last
bone, and accumulates each bone's transformed contribution. -/
def skinningMixLines (output input matrix swizzle : String) (count : Nat) : List String :=
  ["\x7b\n  float weight_i;\n  float weight_n = 1.0;\n"]
  ++ (List.range count).flatMap (fun i =>
      (if i < count - 1 then
        ["  weight_i = weight." ++ xyzw i ++ ";\n  weight_n -= weight_i;\n"]
       else
        ["  weight_i = weight_n;\n"])
      ++ ["  " ++ output ++ " += (" ++ input ++ " * " ++ matrix ++ toString i
          ++ ")." ++ swizzle ++ " * weight_i;\n"])
  ++ ["\x7d\n"]

/-- Embedding of `append_skinning_code` (shaders.c:238-279).  `count = 0`
passes position/normal through matrix 0 unweighted; the mix (unity-sum)
path emits `skinningMixLines`; the individual-weights path ends in
`assert(false); /* FIXME: Untested */` (shaders.c:276), modelled as a
fatal error. -/
def append_skinning_code (mix : Bool) (count : Nat)
    (ty output input matrix swizzle : String) : Except String (List String) :=
  if count = 0 then
    .ok [ty ++ " " ++ output ++ " = (" ++ input ++ " * " ++ matrix ++ "0)." ++ swizzle ++ ";\n"]
  else
    if mix then
      .ok ((ty ++ " " ++ output ++ " = " ++ ty ++ "(0.0);\n")
            :: skinningMixLines output input matrix swizzle count)
    else
      .error "assert failed: false (FIXME: Untested individual skinning weights)"

/-- The (mix, count) pair chosen from the skinning mode by the switch at
shaders.c:377-395. -/
def skinningParams : SkinningMode → Bool × Nat
  | .SKINNING_OFF => (false, 0)
  | .SKINNING_1WEIGHTS => (true, 2)
  | .SKINNING_2WEIGHTS2MATRICES => (false, 2)
  | .SKINNING_2WEIGHTS => (true, 3)
  | .SKINNING_3WEIGHTS3MATRICES => (false, 3)
  | .SKINNING_3WEIGHTS => (true, 4)
  | .SKINNING_4WEIGHTS4MATRICES => (false, 4)

/-- Numeric value of the skinning enum (used only in the emitted
`/* Skinning mode %d */` comment at shaders.c:396; the values follow the
declaration order of the 7-variant enum). -/
def skinNum : SkinningMode → Nat
  | .SKINNING_OFF => 0
  | .SKINNING_1WEIGHTS => 1
  | .SKINNING_2WEIGHTS2MATRICES => 2
  | .SKINNING_2WEIGHTS => 3
  | .SKINNING_3WEIGHTS3MATRICES => 4
  | .SKINNING_3WEIGHTS => 5
  | .SKINNING_4WEIGHTS4MATRICES => 6

/-- Sequential appending of fallible per-element emissions, modelling a C
`for` loop whose body appends text and may hit a fatal `assert`. -/
def exceptMap {α : Type} (f : α → Except String (List String)) : List α → Except String (List String)
  | [] => .ok []
  | a :: as =>
    match f a with
    | .error e => .error e
    | .ok b =>
      match exceptMap f as with
      | .error e => .error e
      | .ok bs => .ok (b ++ bs)

/-- Per-component texgen emission (the switch at shaders.c:421-473).
`TEXGEN_OBJECT_LINEAR` appends its line and then hits
`assert(false); /* Untested */` (shaders.c:433), so the process aborts
with no usable output; `TEXGEN_SPHERE_MAP` asserts `j < 2` and
`TEXGEN_REFLECTION_MAP`/`TEXGEN_NORMAL_MAP` assert `j < 3` before
emitting. -/
def texgenComponent (s : ShaderState) (i j : Fin 4) : Except String (List String) :=
  let c := xyzw j.val
  let cSuffix := strq j.val
  let iS := toString i.val
  match s.texgen i j with
  | .TEXGEN_DISABLE =>
      .ok ["oT" ++ iS ++ "." ++ c ++ " = texture" ++ iS ++ "." ++ c ++ ";\n"]
  | .TEXGEN_EYE_LINEAR =>
      .ok ["oT" ++ iS ++ "." ++ c ++ " = dot(texPlane" ++ cSuffix ++ iS ++ ", tPosition);\n"]
  | .TEXGEN_OBJECT_LINEAR =>
      .error "assert failed: false (TEXGEN_OBJECT_LINEAR untested)"
  | .TEXGEN_SPHERE_MAP =>
      if j.val < 2 then
        .ok ["\x7b\n",
             "  vec3 u = normalize(tPosition.xyz);\n",
             "  vec3 r = reflect(u, tNormal);\n",
             "  float invM = 1.0 / (2.0 * length(r + vec3(0.0, 0.0, 1.0)));\n",
             "  oT" ++ iS ++ "." ++ c ++ " = r." ++ c ++ " * invM + 0.5;\n",
             "\x7d\n"]
      else .error "assert failed: j < 2 (TEXGEN_SPHERE_MAP channels S,T only)"
  | .TEXGEN_REFLECTION_MAP =>
      if j.val < 3 then
        .ok ["\x7b\n",
             "  vec3 u = normalize(tPosition.xyz);\n",
             "  vec3 r = reflect(u, tNormal);\n",
             "  oT" ++ iS ++ "." ++ c ++ " = r." ++ c ++ ";\n",
             "\x7d\n"]
      else .error "assert failed: j < 3 (TEXGEN_REFLECTION_MAP channels S,T,R only)"
  | .TEXGEN_NORMAL_MAP =>
      if j.val < 3 then
        .ok ["oT" ++ iS ++ "." ++ c ++ " = tNormal." ++ c ++ ";\n"]
      else .error "assert failed: j < 3 (TEXGEN_NORMAL_MAP channels S,T,R only)"

/-- One texgen stage: the `/* Texgen for stage %d */` comment followed by
the four per-component emissions (shaders.c:412-475). -/
def texgenStage (s : ShaderState) (i : Fin 4) : Except String (List String) :=
  match exceptMap (texgenComponent s i) (List.finRange 4) with
  | .error e => .error e
  | .ok ls => .ok (("/* Texgen for stage " ++ toString i.val ++ " */\n") :: ls)

/-- The whole texgen loop over the four texture stages. -/
def texgenSection (s : ShaderState) : Except String (List String) :=
  exceptMap (texgenStage s) (List.finRange 4)

/-- Texture-matrix application loop (shaders.c:478-484). -/
def texMatrixLines (s : ShaderState) : List String :=
  (List.finRange 4).filterMap (fun i =>
    if s.texture_matrix_enable i then
      some ("oT" ++ toString i.val ++ " = oT" ++ toString i.val ++ " * texMat"
            ++ toString i.val ++ ";\n")
    else none)

/-- Ambient-source selection (shaders.c:491-497). -/
def ambientSrcLine : MaterialColorSource → String
  | .MATERIAL_COLOR_SRC_MATERIAL => "oD0 = vec4(sceneAmbientColor, diffuse.a);\n"
  | .MATERIAL_COLOR_SRC_DIFFUSE => "oD0 = vec4(diffuse.rgb, diffuse.a);\n"
  | .MATERIAL_COLOR_SRC_SPECULAR => "oD0 = vec4(specular.rgb, diffuse.a);\n"

/-- Emission-source selection (shaders.c:500-506). -/
def emissionSrcLine : MaterialColorSource → String
  | .MATERIAL_COLOR_SRC_MATERIAL => "oD0.rgb += sceneAmbientColor;\n"
  | .MATERIAL_COLOR_SRC_DIFFUSE => "oD0.rgb += diffuse.rgb;\n"
  | .MATERIAL_COLOR_SRC_SPECULAR => "oD0.rgb += specular.rgb;\n"

/-- Header uniforms declared for a local or spot light (shaders.c:526-529). -/
def localLightHeader (i : Nat) : List String :=
  ["uniform vec3 lightLocalPosition" ++ toString i ++ ";\nuniform vec3 lightLocalAttenuation"
   ++ toString i ++ ";\n"]

/-- Shared body prelude for local and spot lights (shaders.c:530-541). -/
def localLightBody (i : Nat) : String :=
  "  vec3 VP = lightLocalPosition" ++ toString i ++ " - tPosition.xyz/tPosition.w;\n"
  ++ "  float d = length(VP);\n"
  ++ "  VP = normalize(VP);\n"
  ++ "  float attenuation = 1.0 / (lightLocalAttenuation" ++ toString i ++ ".x\n"
  ++ "                               + lightLocalAttenuation" ++ toString i ++ ".y * d\n"
  ++ "                               + lightLocalAttenuation" ++ toString i ++ ".z * d * d);\n"
  ++ "  vec3 halfVector = normalize(VP + eyePosition.xyz / eyePosition.w);\n"
  ++ "  float nDotVP = max(0.0, dot(tNormal, VP));\n"
  ++ "  float nDotHV = max(0.0, dot(tNormal, halfVector));\n"

/-- Header uniforms declared for an infinite light (shaders.c:550-553). -/
def infiniteLightHeader (i : Nat) : List String :=
  ["uniform vec3 lightInfiniteHalfVector" ++ toString i ++ ";\nuniform vec3 lightInfiniteDirection"
   ++ toString i ++ ";\n"]

/-- Body emitted for an infinite light (shaders.c:554-558). -/
def infiniteLightBody (i : Nat) : String :=
  "  float attenuation = 1.0;\n"
  ++ "  float nDotVP = max(0.0, dot(tNormal, normalize(vec3(lightInfiniteDirection"
  ++ toString i ++ "))));\n"
  ++ "  float nDotHV = max(0.0, dot(tNormal, vec3(lightInfiniteHalfVector"
  ++ toString i ++ ")));\n"

/-- Spotlight-factor block (shaders.c:570-583). -/
def spotLightBody (i : Nat) : String :=
  "  vec4 spotDir = lightSpotDirection(" ++ toString i ++ ");\n"
  ++ "  float invScale = 1/length(spotDir.xyz);\n"
  ++ "  float cosHalfPhi = -invScale*spotDir.w;\n"
  ++ "  float cosHalfTheta = invScale + cosHalfPhi;\n"
  ++ "  float spotDirDotVP = dot(spotDir.xyz, VP);\n"
  ++ "  float rho = invScale*spotDirDotVP;\n"
  ++ "  if (rho > cosHalfTheta) \x7b\n"
  ++ "  \x7d else if (rho <= cosHalfPhi) \x7b\n"
  ++ "    attenuation = 0.0;\n"
  ++ "  \x7d else \x7b\n"
  ++ "    attenuation *= spotDirDotVP + spotDir.w;\n"
  ++ "  \x7d\n"

/-- Specular-power and per-light color block (shaders.c:590-600). -/
def lightColorBlock (i : Nat) : String :=
  "  float pf;\n"
  ++ "  if (nDotVP == 0.0) \x7b\n"
  ++ "    pf = 0.0;\n"
  ++ "  \x7d else \x7b\n"
  ++ "    pf = pow(nDotHV, /* specular(l, m, n, l1, m1, n1) */ 0.001);\n"
  ++ "  \x7d\n"
  ++ "  vec3 lightAmbient = lightAmbientColor(" ++ toString i ++ ") * attenuation;\n"
  ++ "  vec3 lightDiffuse = lightDiffuseColor(" ++ toString i ++ ") * attenuation * nDotVP;\n"
  ++ "  vec3 lightSpecular = lightSpecularColor(" ++ toString i ++ ") * pf;\n"

/-- Accumulation of the per-light contributions into the output color
registers (shaders.c:602-609). -/
def lightAccumLines : List String :=
  ["  oD0.xyz += lightAmbient;\n",
   "  oD0.xyz += diffuse.xyz * lightDiffuse;\n",
   "  oD1.xyz += specular.xyz * lightSpecular;\n"]

/-- Header and body text emitted for light slot `i` (the loop body at
shaders.c:510-612). -/
def lightCode (i : Nat) : LightType → List String × List String
  | .LIGHT_OFF => ([], [])
  | .LIGHT_INFINITE =>
      (infiniteLightHeader i,
       ["/* Light " ++ toString i ++ " */ \x7b\n", infiniteLightBody i, lightColorBlock i]
       ++ lightAccumLines ++ ["\x7d\n"])
  | .LIGHT_LOCAL =>
      (localLightHeader i,
       ["/* Light " ++ toString i ++ " */ \x7b\n", localLightBody i, lightColorBlock i]
       ++ lightAccumLines ++ ["\x7d\n"])
  | .LIGHT_SPOT =>
      (localLightHeader i,
       ["/* Light " ++ toString i ++ " */ \x7b\n", localLightBody i, spotLightBody i,
        lightColorBlock i]
       ++ lightAccumLines ++ ["\x7d\n"])

/-- The whole lighting block (shaders.c:487-616): header additions and
body lines.  With lighting disabled, diffuse/specular pass through. -/
def lightingSection (s : ShaderState) : List String × List String :=
  if s.lighting then
    let per := (List.finRange 8).map (fun i => lightCode i.val (s.light i))
    ((per.map Prod.fst).flatten,
     [ambientSrcLine s.ambient_src,
      "oD0.rgb *= materialEmissionColor.rgb;\n",
      emissionSrcLine s.emission_src,
      "oD1 = vec4(0.0, 0.0, 0.0, specular.a);\n"]
     ++ (per.map Prod.snd).flatten)
  else ([], ["  oD0 = diffuse;\n", "  oD1 = specular;\n"])

/-- Fog-distance computation (the `foggen` switch at shaders.c:624-645,
emitted only when fog is enabled). -/
def foggenLines (s : ShaderState) : List String :=
  if s.fog_enable then
    match s.foggen with
    | .FOGGEN_SPEC_ALPHA => ["  float fogDistance = clamp(specular.a, 0.0, 1.0);\n"]
    | .FOGGEN_RADIAL => ["  float fogDistance = length(tPosition.xyz);\n"]
    | .FOGGEN_PLANAR =>
        ["  float fogDistance = dot(fogPlane.xyz, tPosition.xyz) + fogPlane.w;\n"]
    | .FOGGEN_ABS_PLANAR =>
        ["  float fogDistance = dot(fogPlane.xyz, tPosition.xyz) + fogPlane.w;\n",
         "  fogDistance = abs(fogDistance);\n"]
    | .FOGGEN_FOG_X => ["  float fogDistance = fogCoord;\n"]
  else []

/-- Point-size computation (shaders.c:659-672): either the
distance-attenuated formula from `point_params` or the fixed
`point_size`, both scaled by `surface_scale_factor`. -/
def pointSizeLines (s : ShaderState) : List String :=
  if s.point_params_enable then
    let f0 := fmtFloat (s.point_params 0)
    let f1 := fmtFloat (s.point_params 1)
    let f2 := fmtFloat (s.point_params 2)
    let f3 := fmtFloat (s.point_params 3)
    let f6 := fmtFloat (s.point_params 6)
    let f7 := fmtFloat (s.point_params 7)
    ["  float d_e = length(position * modelViewMat0);\n  oPts.x = 1/sqrt(" ++ f0 ++ " + "
     ++ f1 ++ "*d_e + " ++ f2 ++ "*d_e*d_e) + " ++ f6 ++ ";\n",
     "  oPts.x = min(oPts.x*" ++ f3 ++ " + " ++ f7 ++ ", 64.0) * "
     ++ toString s.surface_scale_factor ++ ";\n"]
  else
    ["  oPts.x = " ++ fmtFloat s.point_size ++ " * "
     ++ toString s.surface_scale_factor ++ ";\n"]

/-- Header prologue of `generate_fixed_function` (the single
`mstring_append` at shaders.c:296-372).  The numeric context-slot indices
spliced by `stringify(NV_IGRAPH_XF_...)` and the `NV2A_*` bank sizes come
from headers that are not under `src/`, so they are kept as symbolic
tokens; no claim depends on this text. -/
def ffHeaderText : String :=
  "#define position      v0\n#define weight        v1\n#define normal        v2.xyz\n#define diffuse       v3\n#define specular      v4\n#define fogCoord      v5.x\n#define pointSize     v6\n#define backDiffuse   v7\n#define backSpecular  v8\n#define texture0      v9\n#define texture1      v10\n#define texture2      v11\n#define texture3      v12\n#define reserved1     v13\n#define reserved2     v14\n#define reserved3     v15\n\nuniform vec4 ltctxa[NV2A_LTCTXA_COUNT];\nuniform vec4 ltctxb[NV2A_LTCTXB_COUNT];\nuniform vec4 ltc1[NV2A_LTC1_COUNT];\n\n#define projectionMat mat4(c[PMAT0], c[PMAT0+1], c[PMAT0+2], c[PMAT0+3])\n#define compositeMat mat4(c[CMAT0], c[CMAT0+1], c[CMAT0+2], c[CMAT0+3])\n\n#define texPlaneS0 c[TG0MAT+0]\n#define texPlaneT0 c[TG0MAT+1]\n#define texPlaneQ0 c[TG0MAT+2]\n#define texPlaneR0 c[TG0MAT+3]\n\n#define texPlaneS1 c[TG1MAT+0]\n#define texPlaneT1 c[TG1MAT+1]\n#define texPlaneQ1 c[TG1MAT+2]\n#define texPlaneR1 c[TG1MAT+3]\n\n#define texPlaneS2 c[TG2MAT+0]\n#define texPlaneT2 c[TG2MAT+1]\n#define texPlaneQ2 c[TG2MAT+2]\n#define texPlaneR2 c[TG2MAT+3]\n\n#define texPlaneS3 c[TG3MAT+0]\n#define texPlaneT3 c[TG3MAT+1]\n#define texPlaneQ3 c[TG3MAT+2]\n#define texPlaneR3 c[TG3MAT+3]\n\n#define modelViewMat0 mat4(c[MMAT0], c[MMAT0+1], c[MMAT0+2], c[MMAT0+3])\n#define modelViewMat1 mat4(c[MMAT1], c[MMAT1+1], c[MMAT1+2], c[MMAT1+3])\n#define modelViewMat2 mat4(c[MMAT2], c[MMAT2+1], c[MMAT2+2], c[MMAT2+3])\n#define modelViewMat3 mat4(c[MMAT3], c[MMAT3+1], c[MMAT3+2], c[MMAT3+3])\n\n#define invModelViewMat0 mat4(c[IMMAT0], c[IMMAT0+1], c[IMMAT0+2], c[IMMAT0+3])\n#define invModelViewMat1 mat4(c[IMMAT1], c[IMMAT1+1], c[IMMAT1+2], c[IMMAT1+3])\n#define invModelViewMat2 mat4(c[IMMAT2], c[IMMAT2+1], c[IMMAT2+2], c[IMMAT2+3])\n#define invModelViewMat3 mat4(c[IMMAT3], c[IMMAT3+1], c[IMMAT3+2], c[IMMAT3+3])\n\n#define eyePosition c[EYEP]\n\n#define lightAmbientColor(i) ltctxb[L0_AMB + (i)*6].xyz\n#define lightDiffuseColor(i) ltctxb[L0_DIF + (i)*6].xyz\n#define lightSpecularColor(i) ltctxb[L0_SPC + (i)*6].xyz\n\n#define lightSpotFalloff(i) ltctxa[L0_K + (i)*2].xyz\n#define lightSpotDirection(i) ltctxa[L0_SPT + (i)*2]\n\n#define lightLocalRange(i) ltc1[r0 + (i)].x\n\n#define sceneAmbientColor ltctxa[FR_AMB].xyz\n#define materialEmissionColor ltctxa[CM_COL].xyz\n\nuniform mat4 invViewport;\n\n"

/-- Embedding of `generate_fixed_function` (shaders.c:290-676): the pair
of header additions and body lines, or the message of the first fatal
assertion hit. -/
def generate_fixed_function (s : ShaderState) : Except String (List String × List String) :=
  match append_skinning_code (skinningParams s.skinning).1 (skinningParams s.skinning).2
          "vec4" "tPosition" "position" "modelViewMat" "xyzw" with
  | .error e => .error e
  | .ok skinPos =>
    match append_skinning_code (skinningParams s.skinning).1 (skinningParams s.skinning).2
            "vec3" "tNormal" "vec4(normal, 0.0)" "invModelViewMat" "xyz" with
    | .error e => .error e
    | .ok skinNrm =>
      match texgenSection s with
      | .error e => .error e
      | .ok tg =>
        .ok (ffHeaderText :: (lightingSection s).1,
          ["/* Skinning mode " ++ toString (skinNum s.skinning) ++ " */\n"]
          ++ skinPos ++ skinNrm
          ++ (if s.normalization then ["tNormal = normalize(tNormal);\n"] else [])
          ++ tg ++ texMatrixLines s
          ++ (lightingSection s).2
          ++ ["  oB0 = backDiffuse;\n", "  oB1 = backSpecular;\n"]
          ++ foggenLines s
          ++ (if s.skinning = .SKINNING_OFF then ["  tPosition = position;\n"] else [])
          ++ ["   oPos = invViewport * (tPosition * compositeMat);\n   oPos.z = oPos.z * 2.0 - oPos.w;\n"]
          ++ pointSizeLines s
          ++ ["  vtx.inv_w = 1.0 / oPos.w;\n"])

/-- The infinity guard emitted for the linear, linear-abs and exp fog
modes (shaders.c:800-804 and 809-813; both appends carry this exact
text). -/
def isinfGuard : String :=
  "  if (isinf(fogDistance)) \x7b\n    fogDistance = 0.0;\n  \x7d\n"

/-- Guard part of the fog-mode switch (shaders.c:791-839): the
linear/linear-abs arm and the exp arm (which falls through to exp-abs)
emit `isinfGuard`; exp-abs entered directly, exp2 and exp2-abs do not. -/
def fogGuardLines : FogMode → List String
  | .FOG_MODE_LINEAR => [isinfGuard]
  | .FOG_MODE_LINEAR_ABS => [isinfGuard]
  | .FOG_MODE_EXP => [isinfGuard]
  | _ => []

/-- Formula and bias part of the fog-mode switch (shaders.c:791-839). -/
def fogFormulaLines : FogMode → List String
  | .FOG_MODE_LINEAR =>
      ["  float fogFactor = fogParam[0] + fogDistance * fogParam[1];\n",
       "  fogFactor -= 1.0;\n"]
  | .FOG_MODE_LINEAR_ABS =>
      ["  float fogFactor = fogParam[0] + fogDistance * fogParam[1];\n",
       "  fogFactor -= 1.0;\n"]
  | .FOG_MODE_EXP =>
      ["  float fogFactor = fogParam[0] + exp2(fogDistance * fogParam[1] * 16.0);\n",
       "  fogFactor -= 1.5;\n"]
  | .FOG_MODE_EXP_ABS =>
      ["  float fogFactor = fogParam[0] + exp2(fogDistance * fogParam[1] * 16.0);\n",
       "  fogFactor -= 1.5;\n"]
  | .FOG_MODE_EXP2 =>
      ["  float fogFactor = fogParam[0] + exp2(-fogDistance * fogDistance * fogParam[1] * fogParam[1] * 32.0);\n",
       "  fogFactor -= 1.5;\n"]
  | .FOG_MODE_EXP2_ABS =>
      ["  float fogFactor = fogParam[0] + exp2(-fogDistance * fogDistance * fogParam[1] * fogParam[1] * 32.0);\n",
       "  fogFactor -= 1.5;\n"]

/-- Absolute-value wrapper switch (shaders.c:841-849): applied exactly for
the three `-abs` fog modes. -/
def fogAbsLines : FogMode → List String
  | .FOG_MODE_LINEAR_ABS => ["  fogFactor = abs(fogFactor);\n"]
  | .FOG_MODE_EXP_ABS => ["  fogFactor = abs(fogFactor);\n"]
  | .FOG_MODE_EXP2_ABS => ["  fogFactor = abs(fogFactor);\n"]
  | _ => []

/-- In the vertex-program path the fog distance is read back from `oFog.x`
(shaders.c:779-787). -/
def fogDistanceDecl (s : ShaderState) : List String :=
  if s.vertex_program then ["  float fogDistance = oFog.x;\n"] else []

/-- The fog-factor section of `generate_vertex_shader`
(shaders.c:777-856): with fog enabled, the optional vertex-program
distance read-back, the guard/formula/bias lines for the selected mode,
the abs wrapper, and the `oFog` store; with fog disabled, `oFog` is forced
to 1.0. -/
def fogSection (s : ShaderState) : List String :=
  if s.fog_enable then
    fogDistanceDecl s
    ++ fogGuardLines s.fog_mode
    ++ fogFormulaLines s.fog_mode
    ++ fogAbsLines s.fog_mode
    ++ ["  oFog.xyzw = vec4(fogFactor);\n"]
  else ["  oFog.xyzw = vec4(1.0);\n"]

/-- Output-packing block (the single `mstring_append` at
shaders.c:859-872): the four color registers are clamped to [0,1] and
multiplied by the inverse W; fog and the texture-coordinate registers are
multiplied by the inverse W without clamping. -/
def outputPackText : String :=
  "\n  vtx.D0 = clamp(oD0, 0.0, 1.0) * vtx.inv_w;\n  vtx.D1 = clamp(oD1, 0.0, 1.0) * vtx.inv_w;\n  vtx.B0 = clamp(oB0, 0.0, 1.0) * vtx.inv_w;\n  vtx.B1 = clamp(oB1, 0.0, 1.0) * vtx.inv_w;\n  vtx.Fog = oFog.x * vtx.inv_w;\n  vtx.T0 = oT0 * vtx.inv_w;\n  vtx.T1 = oT1 * vtx.inv_w;\n  vtx.T2 = oT2 * vtx.inv_w;\n  vtx.T3 = oT3 * vtx.inv_w;\n  gl_Position = oPos;\n  gl_PointSize = oPts.x;\n\n\x7d\n"

/-- `STRUCT_VERTEX_DATA` from `shaders_common.h` (not under `src/`),
modelled from the spec's output-register list. -/
def structVertexDataText : String :=
  "struct VertexData \x7b\n  float inv_w;\n  vec4 D0;\n  vec4 D1;\n  vec4 B0;\n  vec4 B1;\n  float Fog;\n  vec4 T0;\n  vec4 T1;\n  vec4 T2;\n  vec4 T3;\n\x7d;\n"

/-- Header prologue of `generate_vertex_shader` (the `mstring_from_str`
at shaders.c:682-734, up to `STRUCT_VERTEX_DATA`): version pragma,
shared uniforms, fog/texture-matrix defines, the `o*` output register
declarations and the 11/11/10 decompression helper.
`NV2A_VERTEXSHADER_CONSTANTS` is kept symbolic (header not under
`src/`). -/
def vshHeaderPrologue : String :=
  "#version 400\n\nuniform vec2 clipRange;\nuniform vec2 surfaceSize;\n\nuniform vec4 c[NV2A_VERTEXSHADER_CONSTANTS];\n\nuniform vec4 fogColor;\nuniform float fogParam[2];\n\n#define fogPlane c[FOG]\n#define texMat0 mat4(c[T0MAT], c[T0MAT+1], c[T0MAT+2], c[T0MAT+3])\n#define texMat1 mat4(c[T1MAT], c[T1MAT+1], c[T1MAT+2], c[T1MAT+3])\n#define texMat2 mat4(c[T2MAT], c[T2MAT+1], c[T2MAT+2], c[T2MAT+3])\n#define texMat3 mat4(c[T3MAT], c[T3MAT+1], c[T3MAT+2], c[T3MAT+3])\n\nvec4 oPos = vec4(0.0,0.0,0.0,1.0);\nvec4 oD0 = vec4(0.0,0.0,0.0,1.0);\nvec4 oD1 = vec4(0.0,0.0,0.0,1.0);\nvec4 oB0 = vec4(0.0,0.0,0.0,1.0);\nvec4 oB1 = vec4(0.0,0.0,0.0,1.0);\nvec4 oPts = vec4(0.0,0.0,0.0,1.0);\nvec4 oFog = vec4(1.0,0.0,0.0,1.0);\nvec4 oT0 = vec4(0.0,0.0,0.0,1.0);\nvec4 oT1 = vec4(0.0,0.0,0.0,1.0);\nvec4 oT2 = vec4(0.0,0.0,0.0,1.0);\nvec4 oT3 = vec4(0.0,0.0,0.0,1.0);\n\nvec4 decompress_11_11_10(int cmp) \x7b\n    float x = float(bitfieldExtract(cmp, 0,  11)) / 1023.0;\n    float y = float(bitfieldExtract(cmp, 11, 11)) / 1023.0;\n    float z = float(bitfieldExtract(cmp, 22, 10)) / 511.0;\n    return vec4(x, y, z, 1);\n\x7d\n"

/-- Per-attribute input declarations (shaders.c:741-749): attributes
flagged in `compressed_attrs` are declared as packed ints. -/
def attributeDecls (s : ShaderState) : List String :=
  (List.range NV2A_VERTEXSHADER_ATTRIBUTES).map (fun i =>
    if s.compressed_attrs.testBit i then
      "layout(location = " ++ toString i ++ ") in int v" ++ toString i ++ "_cmp;\n"
    else
      "layout(location = " ++ toString i ++ ") in vec4 v" ++ toString i ++ ";\n")

/-- Decompression statements at the top of `main` (shaders.c:754-759). -/
def decompressLines (s : ShaderState) : List String :=
  (List.range NV2A_VERTEXSHADER_ATTRIBUTES).filterMap (fun i =>
    if s.compressed_attrs.testBit i then
      some ("vec4 v" ++ toString i ++ " = decompress_11_11_10(v" ++ toString i ++ "_cmp);\n")
    else none)

/-- Interface type of the external microcode translator `vsh_translate`
(declared elsewhere; per the spec it is a pure text producer taking the
bytecode, its length and the z-perspective flag and appending header and
body text). -/
def VshTranslator : Type := List Nat → Nat → Bool → List String × List String

/-- Embedding of `generate_vertex_shader` (shaders.c:678-880),
parameterized by the external `vsh_translate` since that translator's
source is not part of this repository.  The result is the final
header-then-body line sequence (the C code appends the body onto the
header before returning), or the first fatal assertion message. -/
def generate_vertex_shader (tr : VshTranslator) (s : ShaderState) (vtxPfx : String) :
    Except String (List String) :=
  let header0 :=
    [vshHeaderPrologue, structVertexDataText,
     "noperspective out VertexData " ++ vtxPfx ++ "_vtx;\n",
     "#define vtx " ++ vtxPfx ++ "_vtx\n", "\n"]
    ++ attributeDecls s ++ ["\n"]
  let body0 := ["void main() \x7b\n"] ++ decompressLines s
  match (if s.fixed_function then generate_fixed_function s
         else if s.vertex_program then
           .ok (tr s.program_data s.program_length s.z_perspective)
         else .error "assert failed: false (neither fixed_function nor vertex_program)") with
  | .error e => .error e
  | .ok hb =>
      .ok (header0 ++ hb.1 ++ body0 ++ hb.2 ++ fogSection s ++ [outputPackText])

/-- Full generated vertex-shader text: the concatenation of all emitted
pieces. -/
def generate_vertex_shader_text (tr : VshTranslator) (s : ShaderState) (vtxPfx : String) :
    Except String String :=
  Except.map String.join (generate_vertex_shader tr s vtxPfx)

/-- Boolean success projection of a generation result. -/
def isOkB {α : Type} : Except String α → Bool
  | .ok _ => true
  | .error _ => false

/-- Claim C3: with fog enabled, the emitted fog-factor code follows the
spec's table — linear and linear-abs compute
`fogParam[0] + fogDistance * fogParam[1]` then subtract 1.0; exp and
exp-abs compute `fogParam[0] + exp2(fogDistance * fogParam[1] * 16.0)`
then subtract 1.5; exp2 and exp2-abs compute
`fogParam[0] + exp2(-fogDistance * fogDistance * fogParam[1] * fogParam[1] * 32.0)`
then subtract 1.5 — and the absolute-value wrapper is applied exactly for
the three `-abs` modes. -/
theorem fog_factor_formula_table :
    (∀ s : ShaderState, fogSection s =
       if s.fog_enable then
         fogDistanceDecl s ++ fogGuardLines s.fog_mode ++ fogFormulaLines s.fog_mode
         ++ fogAbsLines s.fog_mode ++ ["  oFog.xyzw = vec4(fogFactor);\n"]
       else ["  oFog.xyzw = vec4(1.0);\n"])
    ∧ (∀ m : FogMode, fogFormulaLines m =
        if m = .FOG_MODE_LINEAR ∨ m = .FOG_MODE_LINEAR_ABS then
          ["  float fogFactor = fogParam[0] + fogDistance * fogParam[1];\n",
           "  fogFactor -= 1.0;\n"]
        else if m = .FOG_MODE_EXP ∨ m = .FOG_MODE_EXP_ABS then
          ["  float fogFactor = fogParam[0] + exp2(fogDistance * fogParam[1] * 16.0);\n",
           "  fogFactor -= 1.5;\n"]
        else
          ["  float fogFactor = fogParam[0] + exp2(-fogDistance * fogDistance * fogParam[1] * fogParam[1] * 32.0);\n",
           "  fogFactor -= 1.5;\n"])
    ∧ (∀ m : FogMode, fogAbsLines m =
        if m = .FOG_MODE_LINEAR_ABS ∨ m = .FOG_MODE_EXP_ABS ∨ m = .FOG_MODE_EXP2_ABS then
          ["  fogFactor = abs(fogFactor);\n"]
        else []) :=
  ⟨fun _ => rfl, fun m => by cases m <;> rfl, fun m => by cases m <;> rfl⟩

/-- Claim C10: the emitted fog code replaces an infinite fog distance by
0.0 (the `isinf` guard) exactly for the linear, linear-abs and exp fog
modes, before the factor formula; exp-abs, exp2 and exp2-abs get no such
guard. -/
theorem fog_infinity_guard :
    (∀ m : FogMode, fogGuardLines m =
       if m = .FOG_MODE_LINEAR ∨ m = .FOG_MODE_LINEAR_ABS ∨ m = .FOG_MODE_EXP
       then [isinfGuard] else [])
    ∧ isinfGuard = "  if (isinf(fogDistance)) \x7b\n    fogDistance = 0.0;\n  \x7d\n"
    ∧ (∀ s : ShaderState, fogSection s =
       if s.fog_enable then
         fogDistanceDecl s ++ fogGuardLines s.fog_mode ++ fogFormulaLines s.fog_mode
         ++ fogAbsLines s.fog_mode ++ ["  oFog.xyzw = vec4(fogFactor);\n"]
       else ["  oFog.xyzw = vec4(1.0);\n"]) :=
  ⟨fun m => by cases m <;> rfl, rfl, fun _ => rfl⟩

/-- The last element of a list ending in an explicit singleton. -/
lemma getLast?_append_singleton {α : Type} (l : List α) (a : α) :
    (l ++ [a]).getLast? = some a := by
  simp

/-- Claim C9: whenever vertex-shader generation succeeds, the emitted text
ends with the output-packing block, in which the four color registers
(oD0, oD1, oB0, oB1) are clamped to [0.0, 1.0] before multiplication by
the inverse homogeneous W, while the fog and texture-coordinate registers
are multiplied by the inverse W without clamping. -/
theorem output_packing_clamps_colors (tr : VshTranslator) (s : ShaderState) (vtxPfx : String) :
    (Except.map (fun lines => lines.getLast?) (generate_vertex_shader tr s vtxPfx)
       = .ok (some outputPackText)
     ∨ isOkB (generate_vertex_shader tr s vtxPfx) = false)
    ∧ outputPackText =
      "\n  vtx.D0 = clamp(oD0, 0.0, 1.0) * vtx.inv_w;\n  vtx.D1 = clamp(oD1, 0.0, 1.0) * vtx.inv_w;\n  vtx.B0 = clamp(oB0, 0.0, 1.0) * vtx.inv_w;\n  vtx.B1 = clamp(oB1, 0.0, 1.0) * vtx.inv_w;\n  vtx.Fog = oFog.x * vtx.inv_w;\n  vtx.T0 = oT0 * vtx.inv_w;\n  vtx.T1 = oT1 * vtx.inv_w;\n  vtx.T2 = oT2 * vtx.inv_w;\n  vtx.T3 = oT3 * vtx.inv_w;\n  gl_Position = oPos;\n  gl_PointSize = oPts.x;\n\n\x7d\n" := by
  constructor
  · cases h : (if s.fixed_function then generate_fixed_function s
               else if s.vertex_program then
                 .ok (tr s.program_data s.program_length s.z_perspective)
               else .error "assert failed: false (neither fixed_function nor vertex_program)") with
    | error e =>
        right
        simp [generate_vertex_shader, h, isOkB]
    | ok p =>
        left
        simp only [generate_vertex_shader, h, Except.map]
        rw [getLast?_append_singleton]
  · rfl

/-- A stand-in for the external microcode translator that appends nothing
(used only to instantiate witnesses; the theorems hold for every
translator). -/
def nullTranslator : VshTranslator := fun _ _ _ => ([], [])

/-- A benign in-contract ShaderState: fixed function, symmetric fill
modes, no skinning, passthrough texgen, lighting and fog off. -/
def exampleState : ShaderState where
  primitive_mode := .PRIM_TYPE_TRIANGLES
  polygon_front_mode := .POLY_MODE_FILL
  polygon_back_mode := .POLY_MODE_FILL
  fixed_function := true
  vertex_program := false
  program_data := []
  program_length := 0
  z_perspective := false
  skinning := .SKINNING_OFF
  normalization := false
  texgen := fun _ _ => .TEXGEN_DISABLE
  texture_matrix_enable := fun _ => false
  lighting := false
  ambient_src := .MATERIAL_COLOR_SRC_MATERIAL
  emission_src := .MATERIAL_COLOR_SRC_MATERIAL
  light := fun _ => .LIGHT_OFF
  fog_enable := false
  foggen := .FOGGEN_SPEC_ALPHA
  fog_mode := .FOG_MODE_LINEAR
  point_params_enable := false
  point_params := fun _ => 0
  point_size := 1
  surface_scale_factor := 1
  compressed_attrs := 0

/-- Claim C8: generation is a pure, deterministic function of the
ShaderState — equal states yield byte-identical vertex-stage (and
geometry-stage) program text, for any fixed external translator.  The
embedded generators consume nothing but their arguments, mirroring the C
code, which reads no global mutable state. -/
theorem shader_generation_deterministic (tr : VshTranslator) (s₁ s₂ : ShaderState)
    (vtxPfx : String) (h : s₁ = s₂) :
    generate_vertex_shader tr s₁ vtxPfx = generate_vertex_shader tr s₂ vtxPfx
    ∧ generate_vertex_shader_text tr s₁ vtxPfx = generate_vertex_shader_text tr s₂ vtxPfx
    ∧ generate_geometry_shader s₁.polygon_front_mode s₁.polygon_back_mode s₁.primitive_mode
      = generate_geometry_shader s₂.polygon_front_mode s₂.polygon_back_mode s₂.primitive_mode := by
  subst h
  exact ⟨rfl, rfl, rfl⟩

/-- Witness for `shader_generation_deterministic` at a concrete state and
translator. -/
theorem shader_generation_deterministic_witness :
    generate_vertex_shader nullTranslator exampleState "v"
      = generate_vertex_shader nullTranslator exampleState "v"
    ∧ generate_vertex_shader_text nullTranslator exampleState "v"
      = generate_vertex_shader_text nullTranslator exampleState "v"
    ∧ generate_geometry_shader exampleState.polygon_front_mode exampleState.polygon_back_mode
        exampleState.primitive_mode
      = generate_geometry_shader exampleState.polygon_front_mode exampleState.polygon_back_mode
        exampleState.primitive_mode :=
  shader_generation_deterministic nullTranslator exampleState exampleState "v" rfl

/-- Component support predicate for texgen: true unless the mode is the
untested object-linear path or a sphere/reflection/normal map on a
component its assertion rejects (shaders.c:430-468). -/
def texgenSupported : TexgenMode → Fin 4 → Bool
  | .TEXGEN_OBJECT_LINEAR, _ => false
  | .TEXGEN_SPHERE_MAP, j => decide (j.val < 2)
  | .TEXGEN_REFLECTION_MAP, j => decide (j.val < 3)
  | .TEXGEN_NORMAL_MAP, j => decide (j.val < 3)
  | _, _ => true

/-- `append_skinning_code` succeeds exactly on the unity-sum ("mix") and
count-zero paths. -/
lemma append_skinning_code_ok (mix : Bool) (count : Nat) (ty output input matrix swizzle : String)
    (h : mix = true ∨ count = 0) :
    ∃ l, append_skinning_code mix count ty output input matrix swizzle = .ok l := by
  rcases h with h | h
  · subst h
    by_cases h0 : count = 0
    · exact ⟨_, by unfold append_skinning_code; rw [if_pos h0]⟩
    · exact ⟨_, by unfold append_skinning_code; rw [if_neg h0, if_pos rfl]⟩
  · exact ⟨_, by unfold append_skinning_code; rw [if_pos h]⟩

/-- A fallible emission loop succeeds when every element does. -/
lemma exceptMap_ok {α : Type} (f : α → Except String (List String)) (l : List α)
    (h : ∀ a ∈ l, ∃ b, f a = .ok b) : ∃ bs, exceptMap f l = .ok bs := by
  induction l with
  | nil => exact ⟨[], rfl⟩
  | cons a as ih =>
    obtain ⟨b, hb⟩ := h a (List.mem_cons_self a as)
    obtain ⟨bs, hbs⟩ := ih (fun x hx => h x (List.mem_cons_of_mem a hx))
    exact ⟨b ++ bs, by simp [exceptMap, hb, hbs]⟩

/-- A supported texgen component emits successfully. -/
lemma texgenComponent_ok (s : ShaderState) (i j : Fin 4)
    (h : texgenSupported (s.texgen i j) j = true) :
    ∃ l, texgenComponent s i j = .ok l := by
  cases hm : s.texgen i j with
  | TEXGEN_DISABLE => exact ⟨_, by unfold texgenComponent; rw [hm]⟩
  | TEXGEN_EYE_LINEAR => exact ⟨_, by unfold texgenComponent; rw [hm]⟩
  | TEXGEN_OBJECT_LINEAR => rw [hm] at h; simp [texgenSupported] at h
  | TEXGEN_SPHERE_MAP =>
      rw [hm] at h
      have hj : j.val < 2 := by simpa [texgenSupported] using h
      exact ⟨_, by simp only [texgenComponent, hm]; rw [if_pos hj]⟩
  | TEXGEN_REFLECTION_MAP =>
      rw [hm] at h
      have hj : j.val < 3 := by simpa [texgenSupported] using h
      exact ⟨_, by simp only [texgenComponent, hm]; rw [if_pos hj]⟩
  | TEXGEN_NORMAL_MAP =>
      rw [hm] at h
      have hj : j.val < 3 := by simpa [texgenSupported] using h
      exact ⟨_, by simp only [texgenComponent, hm]; rw [if_pos hj]⟩

/-- The whole texgen section succeeds when every component is supported. -/
lemma texgenSection_ok (s : ShaderState)
    (h : ∀ i j : Fin 4, texgenSupported (s.texgen i j) j = true) :
    ∃ l, texgenSection s = .ok l := by
  apply exceptMap_ok
  intro i _
  obtain ⟨b, hb⟩ := exceptMap_ok (texgenComponent s i) (List.finRange 4)
      (fun j _ => texgenComponent_ok s i j (h i j))
  exact ⟨_, by unfold texgenStage; rw [hb]⟩

/-- An in-contract state selecting an independent-weight skinning mode
(2 weights with 2 matrices). -/
def indepSkinState : ShaderState :=
  { exampleState with skinning := .SKINNING_2WEIGHTS2MATRICES }

/-- An in-contract state selecting object-linear texgen. -/
def objLinearState : ShaderState :=
  { exampleState with texgen := fun _ _ => .TEXGEN_OBJECT_LINEAR }

/-- An in-contract state selecting sphere-map texgen on the R component. -/
def sphereRState : ShaderState :=
  { exampleState with
      texgen := fun _ j => if j.val = 2 then .TEXGEN_SPHERE_MAP else .TEXGEN_DISABLE }

/-- Counterexample to claim C2: in-contract states (front mode = back
mode, `fixed_function` set, every enumeration field a defined variant)
whose skinning mode is independent-weight, or whose texgen mode is
object-linear, do reach internal `assert(false)` aborts
(shaders.c:276 and shaders.c:433); sphere-map texgen on the R component
likewise trips its component assertion (shaders.c:436). -/
theorem fixed_function_untested_asserts :
    errMsg (generate_vertex_shader nullTranslator indepSkinState "v")
      = some "assert failed: false (FIXME: Untested individual skinning weights)"
    ∧ indepSkinState.polygon_front_mode = indepSkinState.polygon_back_mode
    ∧ indepSkinState.fixed_function = true
    ∧ indepSkinState.vertex_program = false
    ∧ errMsg (generate_vertex_shader nullTranslator objLinearState "v")
      = some "assert failed: false (TEXGEN_OBJECT_LINEAR untested)"
    ∧ errMsg (generate_vertex_shader nullTranslator sphereRState "v")
      = some "assert failed: j < 2 (TEXGEN_SPHERE_MAP channels S,T only)" :=
  ⟨rfl, rfl, rfl, rfl, rfl, rfl⟩

/-- Claim C2 (amended): for every in-contract ShaderState (one of
`fixed_function`/`vertex_program` set and every enumeration field a
defined variant) that moreover avoids the deliberately untested fatal
paths — i.e. does not select an independent-weight skinning mode
(2/3/4 weights with matching matrix counts) and uses no object-linear
texgen and no sphere/reflection/normal-map texgen on a component its
assertion rejects — shader text generation always succeeds; the excluded
paths end in `assert(false)`/component assertions by design. -/
theorem vertex_shader_generation_total (tr : VshTranslator) (s : ShaderState) (vtxPfx : String)
    (hskin : s.fixed_function = true →
      s.skinning ≠ .SKINNING_2WEIGHTS2MATRICES ∧ s.skinning ≠ .SKINNING_3WEIGHTS3MATRICES
      ∧ s.skinning ≠ .SKINNING_4WEIGHTS4MATRICES)
    (htex : s.fixed_function = true → ∀ i j : Fin 4, texgenSupported (s.texgen i j) j = true)
    (hpath : s.fixed_function = true ∨ s.vertex_program = true) :
    isOkB (generate_vertex_shader tr s vtxPfx) = true := by
  by_cases hf : s.fixed_function = true
  · obtain ⟨h2a, h2b, h2c⟩ := hskin hf
    have hmz : (skinningParams s.skinning).1 = true ∨ (skinningParams s.skinning).2 = 0 := by
      cases hm : s.skinning <;> simp_all [skinningParams]
    obtain ⟨l1, hl1⟩ :=
      append_skinning_code_ok _ _ "vec4" "tPosition" "position" "modelViewMat" "xyzw" hmz
    obtain ⟨l2, hl2⟩ :=
      append_skinning_code_ok _ _ "vec3" "tNormal" "vec4(normal, 0.0)" "invModelViewMat" "xyz" hmz
    obtain ⟨l3, hl3⟩ := texgenSection_ok s (htex hf)
    have hff : ∃ p, generate_fixed_function s = .ok p :=
      ⟨_, by unfold generate_fixed_function; rw [hl1]; rw [hl2]; rw [hl3]⟩
    obtain ⟨p, hp⟩ := hff
    simp [generate_vertex_shader, hf, hp, isOkB]
  · have hv : s.vertex_program = true := hpath.resolve_left hf
    have hf' : s.fixed_function = false := by simpa using hf
    simp [generate_vertex_shader, hf', hv, isOkB]

/-- Witness for `vertex_shader_generation_total` at a concrete in-contract
state. -/
theorem vertex_shader_generation_total_witness :
    isOkB (generate_vertex_shader nullTranslator exampleState "v") = true :=
  vertex_shader_generation_total nullTranslator exampleState "v"
    (fun _ => by decide) (fun _ => by decide) (Or.inl rfl)

/-- Value semantics of the unity-sum weight loop emitted by
`skinningMixLines` (shaders.c:254-266): the list of `weight_i` values
used for bones `0 .. count-1`.  `weight_n` starts at 1.0; each of the
first `count - 1` bones uses the explicit weight `w i`, which is
subtracted from `weight_n`; the last bone uses `weight_n` itself. -/
def unityWeightAux (w : Nat → ℚ) (count i : Nat) (weight_n : ℚ) : List ℚ :=
  if _h : i < count then
    if i < count - 1 then
      w i :: unityWeightAux w count (i + 1) (weight_n - w i)
    else
      weight_n :: unityWeightAux w count (i + 1) weight_n
  else []
termination_by count - i

/-- The weight sequence of the `count`-bone unity-sum skinning loop. -/
def unityWeights (w : Nat → ℚ) (count : Nat) : List ℚ := unityWeightAux w count 0 1

/-- Value semantics of the accumulation
`output += (input * matrix_i).swz * weight_i` over the same loop
(shaders.c:264-265), with `contrib i` standing for bone `i`'s
matrix-transformed contribution and `acc` for the output register that
starts at 0 (shaders.c:248). -/
def skinAccumAux (contrib w : Nat → ℚ) (count i : Nat) (weight_n acc : ℚ) : ℚ :=
  if _h : i < count then
    if i < count - 1 then
      skinAccumAux contrib w count (i + 1) (weight_n - w i) (acc + contrib i * w i)
    else
      skinAccumAux contrib w count (i + 1) weight_n (acc + contrib i * weight_n)
  else acc
termination_by count - i

/-- Output value accumulated by the `count`-bone unity-sum skinning loop. -/
def skinOutput (contrib w : Nat → ℚ) (count : Nat) : ℚ :=
  skinAccumAux contrib w count 0 1 0

/-- One explicit-weight iteration of the weight loop. -/
lemma unityWeightAux_stepA (w : Nat → ℚ) (count i : Nat) (n : ℚ)
    (h1 : i < count) (h2 : i < count - 1) :
    unityWeightAux w count i n = w i :: unityWeightAux w count (i + 1) (n - w i) := by
  rw [unityWeightAux, dif_pos h1, if_pos h2]

/-- The final (implicit-weight) iteration of the weight loop. -/
lemma unityWeightAux_stepB (w : Nat → ℚ) (count i : Nat) (n : ℚ)
    (h1 : i < count) (h2 : ¬ i < count - 1) :
    unityWeightAux w count i n = n :: unityWeightAux w count (i + 1) n := by
  rw [unityWeightAux, dif_pos h1, if_neg h2]

/-- Loop exit of the weight loop. -/
lemma unityWeightAux_nil (w : Nat → ℚ) (count i : Nat) (n : ℚ) (h : ¬ i < count) :
    unityWeightAux w count i n = [] := by
  rw [unityWeightAux, dif_neg h]

/-- One explicit-weight iteration of the accumulation loop. -/
lemma skinAccumAux_stepA (contrib w : Nat → ℚ) (count i : Nat) (n acc : ℚ)
    (h1 : i < count) (h2 : i < count - 1) :
    skinAccumAux contrib w count i n acc
      = skinAccumAux contrib w count (i + 1) (n - w i) (acc + contrib i * w i) := by
  rw [skinAccumAux, dif_pos h1, if_pos h2]

/-- The final (implicit-weight) iteration of the accumulation loop. -/
lemma skinAccumAux_stepB (contrib w : Nat → ℚ) (count i : Nat) (n acc : ℚ)
    (h1 : i < count) (h2 : ¬ i < count - 1) :
    skinAccumAux contrib w count i n acc
      = skinAccumAux contrib w count (i + 1) n (acc + contrib i * n) := by
  rw [skinAccumAux, dif_pos h1, if_neg h2]

/-- Loop exit of the accumulation loop. -/
lemma skinAccumAux_acc (contrib w : Nat → ℚ) (count i : Nat) (n acc : ℚ)
    (h : ¬ i < count) :
    skinAccumAux contrib w count i n acc = acc := by
  rw [skinAccumAux, dif_neg h]

/-- Claim C4: for every unity-sum skinning mode with N bones
(N ∈ {2,3,4}), the emitted loop supplies the explicit weights for the
first N−1 bones and computes the last bone's weight so that it
algebraically equals 1 minus the sum of the first N−1 weights, and the
output accumulates each bone's transformed contribution additively; the
final conjunct pins the concrete GLSL emitted by `append_skinning_code`
for the 4-bone case. -/
theorem skinning_unity_sum (w contrib : Nat → ℚ) :
    unityWeights w 2 = [w 0, 1 - w 0]
    ∧ unityWeights w 3 = [w 0, w 1, 1 - w 0 - w 1]
    ∧ unityWeights w 4 = [w 0, w 1, w 2, 1 - w 0 - w 1 - w 2]
    ∧ (unityWeights w 2).getLast? = some (1 - ∑ i ∈ Finset.range 1, w i)
    ∧ (unityWeights w 3).getLast? = some (1 - ∑ i ∈ Finset.range 2, w i)
    ∧ (unityWeights w 4).getLast? = some (1 - ∑ i ∈ Finset.range 3, w i)
    ∧ skinOutput contrib w 2 = contrib 0 * w 0 + contrib 1 * (1 - w 0)
    ∧ skinOutput contrib w 3
        = contrib 0 * w 0 + contrib 1 * w 1 + contrib 2 * (1 - (w 0 + w 1))
    ∧ skinOutput contrib w 4
        = contrib 0 * w 0 + contrib 1 * w 1 + contrib 2 * w 2
          + contrib 3 * (1 - (w 0 + w 1 + w 2))
    ∧ append_skinning_code true 4 "vec4" "tPosition" "position" "modelViewMat" "xyzw" =
        .ok ["vec4 tPosition = vec4(0.0);\n",
             "\x7b\n  float weight_i;\n  float weight_n = 1.0;\n",
             "  weight_i = weight.x;\n  weight_n -= weight_i;\n",
             "  tPosition += (position * modelViewMat0).xyzw * weight_i;\n",
             "  weight_i = weight.y;\n  weight_n -= weight_i;\n",
             "  tPosition += (position * modelViewMat1).xyzw * weight_i;\n",
             "  weight_i = weight.z;\n  weight_n -= weight_i;\n",
             "  tPosition += (position * modelViewMat2).xyzw * weight_i;\n",
             "  weight_i = weight_n;\n",
             "  tPosition += (position * modelViewMat3).xyzw * weight_i;\n",
             "\x7d\n"] := by
  have h2 : unityWeights w 2 = [w 0, 1 - w 0] := by
    unfold unityWeights
    rw [unityWeightAux_stepA _ _ _ _ (by norm_num) (by norm_num),
        unityWeightAux_stepB _ _ _ _ (by norm_num) (by norm_num),
        unityWeightAux_nil _ _ _ _ (by norm_num)]
  have h3 : unityWeights w 3 = [w 0, w 1, 1 - w 0 - w 1] := by
    unfold unityWeights
    rw [unityWeightAux_stepA _ _ _ _ (by norm_num) (by norm_num),
        unityWeightAux_stepA _ _ _ _ (by norm_num) (by norm_num),
        unityWeightAux_stepB _ _ _ _ (by norm_num) (by norm_num),
        unityWeightAux_nil _ _ _ _ (by norm_num)]
  have h4 : unityWeights w 4 = [w 0, w 1, w 2, 1 - w 0 - w 1 - w 2] := by
    unfold unityWeights
    rw [unityWeightAux_stepA _ _ _ _ (by norm_num) (by norm_num),
        unityWeightAux_stepA _ _ _ _ (by norm_num) (by norm_num),
        unityWeightAux_stepA _ _ _ _ (by norm_num) (by norm_num),
        unityWeightAux_stepB _ _ _ _ (by norm_num) (by norm_num),
        unityWeightAux_nil _ _ _ _ (by norm_num)]
  refine ⟨h2, h3, h4, ?_, ?_, ?_, ?_, ?_, ?_, rfl⟩
  · rw [h2]; simp [Finset.sum_range_one]
  · rw [h3]; simp [Finset.sum_range_succ, Finset.sum_range_one]; ring_nf
  · rw [h4]; simp [Finset.sum_range_succ, Finset.sum_range_one]; ring_nf
  · unfold skinOutput
    rw [skinAccumAux_stepA _ _ _ _ _ _ (by norm_num) (by norm_num),
        skinAccumAux_stepB _ _ _ _ _ _ (by norm_num) (by norm_num),
        skinAccumAux_acc _ _ _ _ _ _ (by norm_num)]
    ring
  · unfold skinOutput
    rw [skinAccumAux_stepA _ _ _ _ _ _ (by norm_num) (by norm_num),
        skinAccumAux_stepA _ _ _ _ _ _ (by norm_num) (by norm_num),
        skinAccumAux_stepB _ _ _ _ _ _ (by norm_num) (by norm_num),
        skinAccumAux_acc _ _ _ _ _ _ (by norm_num)]
    ring
  · unfold skinOutput
    rw [skinAccumAux_stepA _ _ _ _ _ _ (by norm_num) (by norm_num),
        skinAccumAux_stepA _ _ _ _ _ _ (by norm_num) (by norm_num),
        skinAccumAux_stepA _ _ _ _ _ _ (by norm_num) (by norm_num),
        skinAccumAux_stepB _ _ _ _ _ _ (by norm_num) (by norm_num),
        skinAccumAux_acc _ _ _ _ _ _ (by norm_num)]
    ring

/-- How a `ShaderBinding` location field gets its value in
`generate_shaders` (shaders.c:996-1062): either it is filled by a
`glGetUniformLocation` call on a concrete name (which yields the driver's
location or the −1 "not present" sentinel), or it is never written after
the `g_malloc0` zero-initialization at shaders.c:996. -/
inductive UniformLoc
  | resolved (name : String)
  | zeroInit
deriving DecidableEq, Repr

/-- The location-table part of `ShaderBinding` (fields of
`struct ShaderBinding` assigned by `generate_shaders`). -/
structure ShaderBindingLocs where
  psh_constant_loc : Fin 9 → Fin 2 → UniformLoc
  alpha_ref_loc : UniformLoc
  bump_mat_loc : Fin 4 → UniformLoc
  bump_scale_loc : Fin 4 → UniformLoc
  bump_offset_loc : Fin 4 → UniformLoc
  tex_scale_loc : Fin 4 → UniformLoc
  vsh_constant_loc : Fin NV2A_VERTEXSHADER_CONSTANTS → UniformLoc
  surface_size_loc : UniformLoc
  clip_range_loc : UniformLoc
  fog_color_loc : UniformLoc
  fog_param_loc : Fin 2 → UniformLoc
  inv_viewport_loc : UniformLoc
  ltctxa_loc : Fin NV2A_LTCTXA_COUNT → UniformLoc
  ltctxb_loc : Fin NV2A_LTCTXB_COUNT → UniformLoc
  ltc1_loc : Fin NV2A_LTC1_COUNT → UniformLoc
  light_infinite_half_vector_loc : Fin 8 → UniformLoc
  light_infinite_direction_loc : Fin 8 → UniformLoc
  light_local_position_loc : Fin 8 → UniformLoc
  light_local_attenuation_loc : Fin 8 → UniformLoc
  clip_region_loc : Fin 8 → UniformLoc

/-- Embedding of the uniform-lookup phase of `generate_shaders`
(shaders.c:1000-1060).  Every field mirrors the corresponding loop or
single lookup; in particular the bump-matrix/scale/offset loop at
shaders.c:1008 starts at `i = 1`, so the stage-0 bump entries are never
looked up and keep their `g_malloc0` zero-initialization. -/
def generate_shaders_uniform_locs : ShaderBindingLocs where
  psh_constant_loc := fun i j =>
    .resolved ("c" ++ toString j.val ++ "_" ++ toString i.val)
  alpha_ref_loc := .resolved "alphaRef"
  bump_mat_loc := fun i =>
    if 1 ≤ i.val then .resolved ("bumpMat" ++ toString i.val) else .zeroInit
  bump_scale_loc := fun i =>
    if 1 ≤ i.val then .resolved ("bumpScale" ++ toString i.val) else .zeroInit
  bump_offset_loc := fun i =>
    if 1 ≤ i.val then .resolved ("bumpOffset" ++ toString i.val) else .zeroInit
  tex_scale_loc := fun i => .resolved ("texScale" ++ toString i.val)
  vsh_constant_loc := fun i => .resolved ("c[" ++ toString i.val ++ "]")
  surface_size_loc := .resolved "surfaceSize"
  clip_range_loc := .resolved "clipRange"
  fog_color_loc := .resolved "fogColor"
  fog_param_loc := fun i => .resolved ("fogParam[" ++ toString i.val ++ "]")
  inv_viewport_loc := .resolved "invViewport"
  ltctxa_loc := fun i => .resolved ("ltctxa[" ++ toString i.val ++ "]")
  ltctxb_loc := fun i => .resolved ("ltctxb[" ++ toString i.val ++ "]")
  ltc1_loc := fun i => .resolved ("ltc1[" ++ toString i.val ++ "]")
  light_infinite_half_vector_loc := fun i =>
    .resolved ("lightInfiniteHalfVector" ++ toString i.val)
  light_infinite_direction_loc := fun i =>
    .resolved ("lightInfiniteDirection" ++ toString i.val)
  light_local_position_loc := fun i =>
    .resolved ("lightLocalPosition" ++ toString i.val)
  light_local_attenuation_loc := fun i =>
    .resolved ("lightLocalAttenuation" ++ toString i.val)
  clip_region_loc := fun i => .resolved ("clipRegion[" ++ toString i.val ++ "]")

/-- Counterexample to claim C7: the bump matrix/scale/offset entries for
texture stage 0 are never resolved — the lookup loop at shaders.c:1008
starts at stage 1 — so they stay zero-initialized instead of holding a
resolved location or the "not present" sentinel, while stage 1 (and the
`texScale` family for all four stages) is resolved. -/
theorem bump_stage0_unresolved :
    generate_shaders_uniform_locs.bump_mat_loc 0 = .zeroInit
    ∧ generate_shaders_uniform_locs.bump_scale_loc 0 = .zeroInit
    ∧ generate_shaders_uniform_locs.bump_offset_loc 0 = .zeroInit
    ∧ generate_shaders_uniform_locs.bump_mat_loc 1 = .resolved "bumpMat1"
    ∧ generate_shaders_uniform_locs.tex_scale_loc 0 = .resolved "texScale0" :=
  ⟨rfl, rfl, rfl, rfl, rfl⟩

/-- Claim C7 (amended): after linking, `generate_shaders` resolves every
name of the fixed semantic uniform set to a location or the "not
present" sentinel, except the bump matrix/scale/offset entries of texture
stage 0: the bump lookups cover stages 1 through 3 only, and the stage-0
bump fields remain zero-initialized. -/
theorem uniform_binding_coverage :
    (∀ i : Fin 4, generate_shaders_uniform_locs.bump_mat_loc i =
        if 1 ≤ i.val then .resolved ("bumpMat" ++ toString i.val) else .zeroInit)
    ∧ (∀ i : Fin 4, generate_shaders_uniform_locs.bump_scale_loc i =
        if 1 ≤ i.val then .resolved ("bumpScale" ++ toString i.val) else .zeroInit)
    ∧ (∀ i : Fin 4, generate_shaders_uniform_locs.bump_offset_loc i =
        if 1 ≤ i.val then .resolved ("bumpOffset" ++ toString i.val) else .zeroInit)
    ∧ (∀ i : Fin 4, generate_shaders_uniform_locs.tex_scale_loc i =
        .resolved ("texScale" ++ toString i.val))
    ∧ (∀ i : Fin NV2A_VERTEXSHADER_CONSTANTS, generate_shaders_uniform_locs.vsh_constant_loc i =
        .resolved ("c[" ++ toString i.val ++ "]"))
    ∧ generate_shaders_uniform_locs.alpha_ref_loc = .resolved "alphaRef"
    ∧ generate_shaders_uniform_locs.surface_size_loc = .resolved "surfaceSize"
    ∧ generate_shaders_uniform_locs.clip_range_loc = .resolved "clipRange"
    ∧ generate_shaders_uniform_locs.fog_color_loc = .resolved "fogColor"
    ∧ (∀ i : Fin 2, generate_shaders_uniform_locs.fog_param_loc i =
        .resolved ("fogParam[" ++ toString i.val ++ "]"))
    ∧ generate_shaders_uniform_locs.inv_viewport_loc = .resolved "invViewport"
    ∧ (∀ i : Fin NV2A_LTCTXA_COUNT, generate_shaders_uniform_locs.ltctxa_loc i =
        .resolved ("ltctxa[" ++ toString i.val ++ "]"))
    ∧ (∀ i : Fin NV2A_LTCTXB_COUNT, generate_shaders_uniform_locs.ltctxb_loc i =
        .resolved ("ltctxb[" ++ toString i.val ++ "]"))
    ∧ (∀ i : Fin NV2A_LTC1_COUNT, generate_shaders_uniform_locs.ltc1_loc i =
        .resolved ("ltc1[" ++ toString i.val ++ "]"))
    ∧ (∀ i : Fin 8, generate_shaders_uniform_locs.light_infinite_half_vector_loc i =
        .resolved ("lightInfiniteHalfVector" ++ toString i.val))
    ∧ (∀ i : Fin 8, generate_shaders_uniform_locs.light_infinite_direction_loc i =
        .resolved ("lightInfiniteDirection" ++ toString i.val))
    ∧ (∀ i : Fin 8, generate_shaders_uniform_locs.light_local_position_loc i =
        .resolved ("lightLocalPosition" ++ toString i.val))
    ∧ (∀ i : Fin 8, generate_shaders_uniform_locs.light_local_attenuation_loc i =
        .resolved ("lightLocalAttenuation" ++ toString i.val))
    ∧ (∀ i : Fin 9, ∀ j : Fin 2, generate_shaders_uniform_locs.psh_constant_loc i j =
        .resolved ("c" ++ toString j.val ++ "_" ++ toString i.val))
    ∧ (∀ i : Fin 8, generate_shaders_uniform_locs.clip_region_loc i =
        .resolved ("clipRegion[" ++ toString i.val ++ "]")) :=
  ⟨fun _ => rfl, fun _ => rfl, fun _ => rfl, fun _ => rfl, fun _ => rfl,
   rfl, rfl, rfl, rfl, fun _ => rfl, rfl, fun _ => rfl, fun _ => rfl, fun _ => rfl,
   fun _ => rfl, fun _ => rfl, fun _ => rfl, fun _ => rfl, fun _ _ => rfl, fun _ => rfl⟩
